import Mathlib

/-!
Verification of the m3u8 download engine (advanced_downloader.py,
download_queue.py) against its natural-language specification.

The Python source is shallowly embedded: pure computations become Lean
functions over Nat / Int / Rat, the scheduler's concurrent admission loop
becomes an explicit step relation on a state record, and the retry loop of
the download worker becomes a fuel-indexed recursion whose per-attempt
behaviour is given by an environment describing what the filesystem and the
network do on each attempt.
-/

namespace M3u8

/-! ## Adaptive thread pool (AdaptiveThreadPool, advanced_downloader.py 54-198) -/

/-- One entry of AdaptiveThreadPool._performance_metrics:
a record appended by record_performance. -/
structure PerfMetric where
  success : Bool
  speed : ℚ
  responseTime : ℚ
  deriving DecidableEq

/-- State of an AdaptiveThreadPool relevant to _adjust_thread_count:
the worker bounds and the rolling metrics window. -/
structure PoolState where
  minWorkers : ℤ
  maxWorkers : ℤ
  currentWorkers : ℤ
  metrics : List PerfMetric
  deriving DecidableEq

/-- Python slice metrics[-10:]: the most recent at-most-10 samples. -/
def recentMetrics (l : List PerfMetric) : List PerfMetric :=
  l.drop (l.length - 10)

/-- Success rate over a metric window, as computed in _adjust_thread_count:
sum(1 for m in window if m.success) / len(window). -/
def successRate (l : List PerfMetric) : ℚ :=
  ((l.filter (fun m => m.success)).length : ℚ) / (l.length : ℚ)

/-- Average response time over a metric window. -/
def avgResponseTime (l : List PerfMetric) : ℚ :=
  (l.map (fun m => m.responseTime)).sum / (l.length : ℚ)

/-- Average speed over a metric window (computed by the source but unused in
the adjustment conditions). -/
def avgSpeed (l : List PerfMetric) : ℚ :=
  (l.map (fun m => m.speed)).sum / (l.length : ℚ)

/-- AdaptiveThreadPool._adjust_thread_count (advanced_downloader.py 108-135).
The decrease condition keeps Python's operator precedence:
success_rate < 0.7 or (avg_response_time > 5.0 and current > min). -/
def adjustThreadCount (s : PoolState) : PoolState :=
  if s.metrics.length < 3 then s
  else
    let recent := recentMetrics s.metrics
    let sr := successRate recent
    let art := avgResponseTime recent
    if sr > 9/10 ∧ art < 2 ∧ s.currentWorkers < s.maxWorkers then
      { s with currentWorkers := min (s.currentWorkers + 2) s.maxWorkers }
    else if sr < 7/10 ∨ (art > 5 ∧ s.currentWorkers > s.minWorkers) then
      { s with currentWorkers := max (s.currentWorkers - 1) s.minWorkers }
    else s

/-! ## Scheduler performance stats (SmartDownloadScheduler.get_performance_stats,
advanced_downloader.py 427-443) -/

/-- The counters of a SmartDownloadScheduler read by get_performance_stats. -/
structure SchedPerfState where
  totalTasks : ℕ
  successfulTasks : ℕ
  failedTasks : ℕ
  totalDownloadTime : ℚ
  totalDownloadedBytes : ℕ
  peakConcurrent : ℕ
  activeCount : ℕ
  deriving DecidableEq

/-- The dictionary returned by get_performance_stats. -/
structure PerfStats where
  totalTasks : ℕ
  successfulTasks : ℕ
  failedTasks : ℕ
  successRate : ℚ
  averageDownloadTime : ℚ
  averageDownloadSpeedMbps : ℚ
  peakConcurrentDownloads : ℕ
  currentActiveDownloads : ℕ
  deriving DecidableEq

/-- SmartDownloadScheduler.get_performance_stats: every ratio is guarded by a
positivity test on its denominator, with 0 as the fallback. -/
def getPerformanceStats (s : SchedPerfState) : PerfStats :=
  { totalTasks := s.totalTasks
    successfulTasks := s.successfulTasks
    failedTasks := s.failedTasks
    successRate :=
      if 0 < s.totalTasks then (s.successfulTasks : ℚ) / (s.totalTasks : ℚ) * 100 else 0
    averageDownloadTime :=
      if 0 < s.totalTasks then s.totalDownloadTime / (s.totalTasks : ℚ) else 0
    averageDownloadSpeedMbps :=
      if 0 < s.totalDownloadTime then
        (s.totalDownloadedBytes : ℚ) / s.totalDownloadTime / 1024 / 1024
      else 0
    peakConcurrentDownloads := s.peakConcurrent
    currentActiveDownloads := s.activeCount }

/-! ## Transfer unit (SmartDownloadScheduler._perform_download,
advanced_downloader.py 714-851) and retry policy
(SmartDownloadScheduler._download_worker, 525-713)

The behaviour of the outside world on one call of _perform_download is an
environment: the sizes the filesystem reports for the destination and temp
files, the outcome of each HTTP GET the inner request loop issues, the
outcome of streaming the response body to disk, and whether os.rename
succeeds. Every exception handler of the source is compiled into the
corresponding return value. -/

/-- Outcome of one GET issued by the inner request loop of _perform_download:
a response with a status code and optional content-length header, or a
requests timeout / connection error. -/
inductive ReqOutcome where
  | ok (status : ℕ) (contentLength : Option ℕ)
  | timeout
  | connError
  deriving DecidableEq

/-- Outcome of streaming the response body to the temp file, with the number
of body bytes obtained. ioError covers any exception inside the chunk loop
(a local write failure or a mid-stream error); _standard_download and
_memory_efficient_download catch every exception and return False with the
byte count so far. -/
inductive BodyOutcome where
  | complete (extra : ℕ)
  | ioError (extra : ℕ)
  deriving DecidableEq

/-- Environment of one _perform_download call. -/
structure PerformEnv where
  destSize : Option ℕ
  tmpSize : Option ℕ
  req : ℕ → ReqOutcome
  body : BodyOutcome
  renameOk : Bool
  memoryEfficient : Bool
  chunkSize : ℕ

/-- Return value of _perform_download, extended with the number of GET
requests it issued (to make network activity observable). -/
structure PerformResult where
  success : Bool
  downloaded : ℕ
  total : ℕ
  requests : ℕ
  deriving DecidableEq

/-- Result of the inner request loop: an early return from _perform_download,
or the post-loop state (downloaded_bytes after the status-code handling, the
content-length of the response kept, and the requests issued). -/
inductive ReqPhase where
  | done (r : PerformResult)
  | proceed (downloaded : ℕ) (contentLength : Option ℕ) (requests : ℕ)
  deriving DecidableEq

/-- The inner request loop of _perform_download (for attempt in range(3),
advanced_downloader.py 737-790), including the status-code dispatch 752-777.
Timeouts and connection errors back off and retry up to 3 requests; on the
third they re-raise, which the outer RequestException handler turns into
(False, downloaded_bytes, 0). A 416 with an existing temp file renames it
and returns its size (a failing rename raises IOError, turned into
(False, downloaded_bytes, 0) by the outer handler); a 404 returns
(False, 0, 0); any status of 400 and above raises via raise_for_status and
is caught by the outer handler. The fuel argument starts at 3 and mirrors
range(3). -/
def requestLoop (env : PerformEnv) (resumed : ℕ) : ℕ → ℕ → ReqPhase
  | _, 0 => ReqPhase.done ⟨false, resumed, 0, 3⟩
  | attempt, fuel + 1 =>
    match env.req attempt with
    | ReqOutcome.timeout =>
        if attempt < 2 then requestLoop env resumed (attempt + 1) fuel
        else ReqPhase.done ⟨false, resumed, 0, attempt + 1⟩
    | ReqOutcome.connError =>
        if attempt < 2 then requestLoop env resumed (attempt + 1) fuel
        else ReqPhase.done ⟨false, resumed, 0, attempt + 1⟩
    | ReqOutcome.ok status cl =>
        if status = 200 then ReqPhase.proceed 0 cl (attempt + 1)
        else if status = 206 then ReqPhase.proceed resumed cl (attempt + 1)
        else if status = 416 then
          match env.tmpSize with
          | some ts =>
              if env.renameOk then ReqPhase.done ⟨true, ts, ts, attempt + 1⟩
              else ReqPhase.done ⟨false, resumed, 0, attempt + 1⟩
          | none => ReqPhase.proceed 0 cl (attempt + 1)
        else if status = 404 then ReqPhase.done ⟨false, 0, 0, attempt + 1⟩
        else if 400 ≤ status then ReqPhase.done ⟨false, resumed, 0, attempt + 1⟩
        else ReqPhase.proceed resumed cl (attempt + 1)

/-- SmartDownloadScheduler._standard_download (853-887): returns the success
flag and the accumulated byte count; every exception is caught and reported
as False with the bytes so far. -/
def standardDownload (body : BodyOutcome) (downloaded : ℕ) : Bool × ℕ :=
  match body with
  | BodyOutcome.complete extra => (true, downloaded + extra)
  | BodyOutcome.ioError extra => (false, downloaded + extra)

/-- SmartDownloadScheduler._memory_efficient_download (889-948): identical
observable return behaviour to _standard_download (the buffering differs
only in the write pattern). -/
def memoryEfficientDownload (body : BodyOutcome) (downloaded : ℕ) : Bool × ℕ :=
  match body with
  | BodyOutcome.complete extra => (true, downloaded + extra)
  | BodyOutcome.ioError extra => (false, downloaded + extra)

/-- SmartDownloadScheduler._perform_download (714-851). Note that every
exception path (RequestException, IOError, any other Exception) is resolved
inside this function into a (False, bytes, 0) return: the function never
raises to its caller. -/
def performDownload (env : PerformEnv) : PerformResult :=
  match env.destSize with
  | some s => ⟨true, s, s, 0⟩
  | none =>
    let resumed := match env.tmpSize with
      | some ts => ts
      | none => 0
    match requestLoop env resumed 0 3 with
    | ReqPhase.done r => r
    | ReqPhase.proceed downloaded cl reqs =>
      let total := match cl with
        | some n => n + downloaded
        | none => 0
      let dl :=
        if env.memoryEfficient ∧ 10 * 1024 * 1024 < total then
          memoryEfficientDownload env.body downloaded
        else standardDownload env.body downloaded
      if dl.1 then
        if env.renameOk then ⟨true, dl.2, if total = 0 then dl.2 else total, reqs⟩
        else ⟨false, dl.2, 0, reqs⟩
      else ⟨false, dl.2, 0, reqs⟩

/-- Error message set by _download_worker when a failed attempt will be
retried. -/
def retryMsg (attempt : ℕ) : String :=
  "下载失败，正在第" ++ toString (attempt + 2) ++ "次重试"

/-- Error message set by _download_worker when retries are exhausted. -/
def exhaustedMsg : String :=
  "下载失败，已达到最大重试次数"

/-- Observable outcome of one _download_worker run: the DownloadResult
fields plus the number of _perform_download invocations, the total GET
requests issued, and the worker-level backoff sleeps performed. -/
structure WorkerResult where
  success : Bool
  downloaded : ℕ
  total : ℕ
  error : Option String
  attempts : ℕ
  requests : ℕ
  waits : List ℕ
  deriving DecidableEq

/-- The retry loop of _download_worker (for attempt in range(retry_count+1),
advanced_downloader.py 574-673). Because _perform_download never raises, the
except branches of the worker (RequestException, IOError, Exception) are
unreachable; every failed attempt takes the success==False branch, which
sleeps 2^attempt seconds and retries while attempts remain. The fuel
argument starts at retryCount+1. -/
def downloadWorkerLoop (envs : ℕ → PerformEnv) (retryCount : ℕ) :
    ℕ → ℕ → Option String → ℕ → List ℕ → WorkerResult
  | 0, attempt, err, reqs, waits => ⟨false, 0, 0, err, attempt, reqs, waits⟩
  | fuel + 1, attempt, err, reqs, waits =>
    let r := performDownload (envs attempt)
    if r.success then
      ⟨true, r.downloaded, r.total, err, attempt + 1, reqs + r.requests, waits⟩
    else if attempt < retryCount then
      downloadWorkerLoop envs retryCount fuel (attempt + 1)
        (some (retryMsg attempt)) (reqs + r.requests) (waits ++ [2 ^ attempt])
    else
      ⟨false, 0, 0, some exhaustedMsg, attempt + 1, reqs + r.requests, waits⟩

/-- SmartDownloadScheduler._download_worker on a task with the given retry
count, where envs gives the environment seen by the i-th attempt. -/
def downloadWorker (envs : ℕ → PerformEnv) (retryCount : ℕ) : WorkerResult :=
  downloadWorkerLoop envs retryCount (retryCount + 1) 0 none 0 []

/-! ## Scheduler state machine (SmartDownloadScheduler, advanced_downloader.py
200-963)

The concurrent behaviour of one scheduler is a step relation over the task
ids held by its four containers. The admission loop (_schedule_loop 469-511)
runs in a single thread, so a dequeue (queue.get) and the recording of the
launched thread in active_downloads are two separate steps of that one
thread, never interleaved with another dequeue; worker threads append their
result to completed_downloads (676-683) while their entry is still in
active_downloads, and _cleanup_completed_downloads (513-523) later removes
entries whose thread has finished. -/

/-- Task-id containers of one SmartDownloadScheduler, plus the stop flag.
launched holds a task taken from the priority queue by the admission loop
whose thread has been started but not yet recorded in active_downloads;
the single-threaded loop keeps it at size at most one. -/
structure SchedState where
  queue : List String
  launched : List String
  active : List String
  completed : List String
  maxConc : ℕ
  stopped : Bool
  deriving DecidableEq

/-- A freshly constructed scheduler: empty containers, given concurrency
limit, not stopped. -/
def SchedState.init (n : ℕ) : SchedState := ⟨[], [], [], [], n, false⟩

/-- One atomic step of a scheduler or of one of its worker threads.
addTask is add_task/add_urgent_task with a task id not seen before (the
batch coordinator generates ids unique per asset); dequeue and record are
the two halves of one admission-loop iteration (the dequeued element may be
any queue element, abstracting the priority order); workerFinish is the
worker writing its DownloadResult into completed_downloads; cleanup is
_cleanup_completed_downloads removing entries whose thread has finished;
adjustStrategy is BatchDownloader._adjust_download_strategy, which only
logs a proposal and changes nothing. -/
inductive SchedStep : SchedState → SchedState → Prop where
  | addTask (s : SchedState) (t : String)
      (hfresh : t ∉ s.queue ∧ t ∉ s.launched ∧ t ∉ s.active ∧ t ∉ s.completed) :
      SchedStep s { s with queue := s.queue ++ [t] }
  | dequeue (s : SchedState) (t : String) (l₁ l₂ : List String)
      (hstop : s.stopped = false)
      (hslot : s.active.length < s.maxConc)
      (hq : s.queue = l₁ ++ t :: l₂)
      (hl : s.launched = []) :
      SchedStep s { s with queue := l₁ ++ l₂, launched := [t] }
  | record (s : SchedState) (t : String) (hl : s.launched = [t]) :
      SchedStep s { s with launched := [], active := s.active ++ [t] }
  | workerFinish (s : SchedState) (t : String)
      (hrun : t ∈ s.launched ∨ t ∈ s.active)
      (hnc : t ∉ s.completed) :
      SchedStep s { s with completed := s.completed ++ [t] }
  | cleanup (s : SchedState) :
      SchedStep s { s with active := s.active.filter (fun t => ¬ s.completed.contains t) }
  | stop (s : SchedState) :
      SchedStep s { s with stopped := true }
  | adjustStrategy (s : SchedState) :
      SchedStep s s

/-- States a scheduler with concurrency limit n can reach from construction. -/
def SchedReachable (n : ℕ) (s : SchedState) : Prop :=
  Relation.ReflTransGen SchedStep (SchedState.init n) s

/-- A task id waiting in the pending queue is in none of the other
containers, and the queue holds no duplicates. -/
def PendingDisjoint (s : SchedState) : Prop :=
  s.queue.Nodup ∧
  ∀ t ∈ s.queue, t ∉ s.launched ∧ t ∉ s.active ∧ t ∉ s.completed

/-! ## Batch progress (BatchDownloader.get_task_progress,
advanced_downloader.py 1301-1340) -/

/-- The fields of a DownloadResult read by get_task_progress. -/
structure SegResult where
  success : Bool
  downloadedBytes : ℕ
  totalBytes : ℕ
  deriving DecidableEq

/-- The view of a SmartDownloadScheduler used by get_task_progress:
get_queue_status / get_queue_size (queued count), get_active_count (active
count) and get_result (lookup in completed_downloads). -/
structure SchedulerSnapshot where
  queuedTasks : ℕ
  activeCount : ℕ
  completedResults : List (String × SegResult)

/-- scheduler.get_result: lookup in the completed-results map. -/
def lookupResult (l : List (String × SegResult)) (id : String) : Option SegResult :=
  (l.find? (fun p => p.1 == id)).map Prod.snd

/-- The result-synchronisation loop of get_task_progress (1311-1315):
for segment_id in list(results.keys()): if segment_id not in results:
fetch from the scheduler. The iteration is over a snapshot of the keys of
the results map itself, and the membership test is against the evolving
map. -/
def syncResults (results : List (String × SegResult)) (sched : SchedulerSnapshot) :
    List (String × SegResult) :=
  (results.map Prod.fst).foldl
    (fun acc id =>
      if (acc.map Prod.fst).contains id then acc
      else
        match lookupResult sched.completedResults id with
        | some r => acc ++ [(id, r)]
        | none => acc)
    results

/-- The dictionary returned by get_task_progress. -/
structure TaskProgress where
  totalSegments : ℕ
  completedSegments : ℕ
  totalBytes : ℕ
  downloadedBytes : ℕ
  progressPercentage : ℚ
  activeDownloads : ℕ
  queueSize : ℕ
  deriving DecidableEq

/-- BatchDownloader.get_task_progress for one asset, given the batch
coordinator's own per-asset results map (task_results[task_id]) and the
scheduler's current counters. When the results map is empty the fallback
approximates the total from queued plus active counts. -/
def getTaskProgress (results : List (String × SegResult)) (sched : SchedulerSnapshot) :
    TaskProgress :=
  let synced := syncResults results sched
  let totalSegments := synced.length
  let completedSegments := (synced.filter (fun p => p.2.success)).length
  let totalBytes := (synced.map (fun p => p.2.totalBytes)).sum
  let downloadedBytes := (synced.map (fun p => p.2.downloadedBytes)).sum
  let totalSegments2 :=
    if totalSegments = 0 then sched.queuedTasks + sched.activeCount else totalSegments
  let completedSegments2 := if totalSegments = 0 then 0 else completedSegments
  let totalBytes2 := if totalSegments = 0 then 0 else totalBytes
  let downloadedBytes2 := if totalSegments = 0 then 0 else downloadedBytes
  { totalSegments := totalSegments2
    completedSegments := completedSegments2
    totalBytes := totalBytes2
    downloadedBytes := downloadedBytes2
    progressPercentage :=
      if 0 < totalSegments2 then
        (completedSegments2 : ℚ) / (totalSegments2 : ℚ) * 100
      else 0
    activeDownloads := sched.activeCount
    queueSize := sched.queuedTasks }

/-! ## Download queue (DownloadQueue, download_queue.py 13-155) -/

/-- TaskStatus of task_manager.py. -/
inductive TaskStatus where
  | pending
  | downloading
  | paused
  | completed
  | failed
  | stopped
  deriving DecidableEq

/-- State of a DownloadQueue together with the statuses its TaskManager
holds: the pending id list, the keys of the running map, the concurrency
bound, the task table, and whether a download callback is installed. -/
structure QueueState where
  pending : List String
  running : List String
  maxConcurrent : ℕ
  tasks : List (String × TaskStatus)
  hasCallback : Bool
  deriving DecidableEq

/-- TaskManager.get_task restricted to the status field. -/
def getTask (ts : List (String × TaskStatus)) (id : String) : Option TaskStatus :=
  (ts.find? (fun p => p.1 == id)).map Prod.snd

/-- TaskManager.update_task_status restricted to the status field. -/
def setStatus (ts : List (String × TaskStatus)) (id : String) (st : TaskStatus) :
    List (String × TaskStatus) :=
  ts.map (fun p => if p.1 == id then (p.1, st) else p)

/-- DownloadQueue._try_start_next_task (download_queue.py 61-95) acting on
(pending, running, tasks). Returns none when the call never terminates:
on a missing or stopped head task the source recurses at line 78 while
still holding the non-reentrant mutex acquired at line 63, so the inner
acquire blocks forever. A successful admission (or a pop without an
installed callback) releases the mutex and recurses at line 95. -/
def tryStartLoop (maxC : ℕ) (hasCb : Bool) :
    List String → List String → List (String × TaskStatus) →
    Option (List String × List String × List (String × TaskStatus))
  | [], running, tasks => some ([], running, tasks)
  | t :: rest, running, tasks =>
    if maxC ≤ running.length then some (t :: rest, running, tasks)
    else
      match getTask tasks t with
      | none => none
      | some st =>
        if st = TaskStatus.stopped then none
        else if hasCb then
          tryStartLoop maxC hasCb rest (running ++ [t]) (setStatus tasks t TaskStatus.downloading)
        else
          tryStartLoop maxC hasCb rest running tasks

/-- DownloadQueue._try_start_next_task on a QueueState. -/
def tryStartNextTask (s : QueueState) : Option QueueState :=
  match tryStartLoop s.maxConcurrent s.hasCallback s.pending s.running s.tasks with
  | none => none
  | some (p, r, ts) => some { s with pending := p, running := r, tasks := ts }

/-- The guarded-insert phase of DownloadQueue.add_to_queue (download_queue.py
38-44): append the id to pending only when it is in neither pending nor
running, marking the task PENDING when the manager knows it. -/
def addToQueueInsert (t : String) (s : QueueState) : QueueState :=
  if t ∉ s.pending ∧ t ∉ s.running then
    { s with
      pending := s.pending ++ [t]
      tasks :=
        match getTask s.tasks t with
        | some _ => setStatus s.tasks t TaskStatus.pending
        | none => s.tasks }
  else s

/-- DownloadQueue.add_to_queue (download_queue.py 36-47): the guarded insert
followed unconditionally by an admission attempt. -/
def addToQueue (t : String) (s : QueueState) : Option QueueState :=
  tryStartNextTask (addToQueueInsert t s)

/-! ## Concrete instances used by the theorems below -/

/-- A pool state with three all-failed samples and room below the limit. -/
def poolW : PoolState :=
  ⟨2, 20, 5, [⟨false, 1, 1⟩, ⟨false, 1, 1⟩, ⟨false, 1, 1⟩]⟩

/-- Scheduler counters with no finished task and no accumulated time. -/
def perfZero : SchedPerfState := ⟨0, 0, 0, 0, 0, 0, 0⟩

/-- Environment of an attempt whose GET succeeds with status 200 but whose
body write raises a local I/O error. -/
def envIOFail : PerformEnv :=
  ⟨none, none, fun _ => ReqOutcome.ok 200 (some 1000), BodyOutcome.ioError 0, true, true, 65536⟩

/-- Environment of an attempt answered HTTP 404. -/
def env404 : PerformEnv :=
  ⟨none, none, fun _ => ReqOutcome.ok 404 none, BodyOutcome.complete 0, true, true, 65536⟩

/-- Environment of an attempt whose every GET times out. -/
def envTimeout : PerformEnv :=
  ⟨none, none, fun _ => ReqOutcome.timeout, BodyOutcome.complete 0, true, true, 65536⟩

/-- Environment where the destination file already exists with 42 bytes. -/
def envExisting : PerformEnv :=
  ⟨some 42, none, fun _ => ReqOutcome.ok 200 none, BodyOutcome.complete 0, true, true, 65536⟩

/-- Scheduler snapshot of an asset of 4 segments after all 4 completed:
empty queue, no active download, 4 successful results of 100 bytes each. -/
def schedC1 : SchedulerSnapshot :=
  ⟨0, 0,
   [("a_segment_0", ⟨true, 100, 100⟩), ("a_segment_1", ⟨true, 100, 100⟩),
    ("a_segment_2", ⟨true, 100, 100⟩), ("a_segment_3", ⟨true, 100, 100⟩)]⟩

/-- Scheduler trace states: after add_task of t1. -/
def schedTrace1 : SchedState := ⟨["t1"], [], [], [], 2, false⟩

/-- After the admission loop dequeues t1 and starts its thread, before the
thread is recorded in active_downloads. -/
def schedTrace2 : SchedState := ⟨[], ["t1"], [], [], 2, false⟩

/-- After the admission loop records t1 in active_downloads. -/
def schedTrace3 : SchedState := ⟨[], [], ["t1"], [], 2, false⟩

/-- After t1's worker thread stores its result in completed_downloads,
before _cleanup_completed_downloads runs. -/
def schedTrace4 : SchedState := ⟨[], [], ["t1"], ["t1"], 2, false⟩

/-- A queue state whose single task t is already pending, with a free
concurrency slot. -/
def qsReAdd : QueueState := ⟨["t"], [], 1, [("t", TaskStatus.pending)], true⟩

/-- The state the source reaches from qsReAdd when add_to_queue is called
again with t: the admission attempt moves t from pending to running. -/
def qsReAddNext : QueueState := ⟨[], ["t"], 1, [("t", TaskStatus.downloading)], true⟩

/-- A queue state with no free slot (max_concurrent = 0), so the admission
attempt leaves it unchanged. -/
def qsGuardW : QueueState := ⟨["a"], [], 0, [("a", TaskStatus.pending)], true⟩

/-! ## Theorems -/

/-- C7: at each adjustment of the adaptive concurrency controller with at
least 3 recorded samples, if over the most recent at-most-10 samples the
success rate is below 0.7, or the average response time exceeds 5.0
seconds — each trigger independently gated by the current limit being
above min_workers — then the worker count decreases by exactly 1, and it
never goes below min_workers. -/
theorem adjustThreadCount_decrease (s : PoolState)
    (h3 : 3 ≤ s.metrics.length)
    (htrig :
      (successRate (recentMetrics s.metrics) < 7/10 ∧ s.minWorkers < s.currentWorkers) ∨
      (5 < avgResponseTime (recentMetrics s.metrics) ∧ s.minWorkers < s.currentWorkers)) :
    (adjustThreadCount s).currentWorkers = s.currentWorkers - 1 ∧
    s.minWorkers ≤ (adjustThreadCount s).currentWorkers := by
  have hcur : s.minWorkers < s.currentWorkers := by
    rcases htrig with ⟨_, h⟩ | ⟨_, h⟩ <;> exact h
  have hres : adjustThreadCount s =
      { s with currentWorkers := max (s.currentWorkers - 1) s.minWorkers } := by
    unfold adjustThreadCount
    rw [if_neg (by omega)]
    rw [if_neg, if_pos]
    · rcases htrig with ⟨h, _⟩ | ⟨h, _⟩
      · exact Or.inl h
      · exact Or.inr ⟨h, hcur⟩
    · rintro ⟨hsr, hart, -⟩
      rcases htrig with ⟨h, _⟩ | ⟨h, _⟩
      · linarith
      · linarith
  rw [hres]
  refine ⟨max_eq_left (by omega), ?_⟩
  exact le_max_right _ _

/-- C7 witness: three all-failed samples give success rate 0 and the limit
drops from 5 to 4, staying at or above the minimum of 2. -/
theorem adjustThreadCount_decrease_witness :
    (adjustThreadCount poolW).currentWorkers = poolW.currentWorkers - 1 ∧
    poolW.minWorkers ≤ (adjustThreadCount poolW).currentWorkers :=
  adjustThreadCount_decrease poolW (by norm_num [poolW])
    (Or.inl ⟨by norm_num [successRate, recentMetrics, poolW], by norm_num [poolW]⟩)

/-- C9: get_performance_stats is total and never divides by zero — with
zero completed tasks the success rate and average download time are 0, and
with zero accumulated download time the average speed is 0. -/
theorem getPerformanceStats_no_div_by_zero (s : SchedPerfState) :
    (s.totalTasks = 0 →
      (getPerformanceStats s).successRate = 0 ∧
      (getPerformanceStats s).averageDownloadTime = 0) ∧
    (s.totalDownloadTime = 0 →
      (getPerformanceStats s).averageDownloadSpeedMbps = 0) := by
  refine ⟨fun h => ?_, fun h => ?_⟩
  · simp [getPerformanceStats, h]
  · simp [getPerformanceStats, h]

/-- C9 witness: the all-zero counter state evaluates to zero rates. -/
theorem getPerformanceStats_no_div_by_zero_witness :
    (getPerformanceStats perfZero).successRate = 0 ∧
    (getPerformanceStats perfZero).averageDownloadTime = 0 ∧
    (getPerformanceStats perfZero).averageDownloadSpeedMbps = 0 :=
  ⟨((getPerformanceStats_no_div_by_zero perfZero).1 rfl).1,
   ((getPerformanceStats_no_div_by_zero perfZero).1 rfl).2,
   (getPerformanceStats_no_div_by_zero perfZero).2 rfl⟩

/-- C8: calling _perform_download on a task whose destination file already
exists returns success immediately with the existing size as both the
downloaded and total byte counts, and issues no network request. -/
theorem performDownload_existing_file (env : PerformEnv) (s : ℕ)
    (hdest : env.destSize = some s) (_hpos : 0 < s) :
    performDownload env = ⟨true, s, s, 0⟩ := by
  unfold performDownload
  rw [hdest]

/-- C8 witness: a 42-byte existing destination short-circuits. -/
theorem performDownload_existing_file_witness :
    0 < 42 ∧ performDownload envExisting = ⟨true, 42, 42, 0⟩ :=
  ⟨by decide, performDownload_existing_file envExisting 42 rfl (by decide)⟩

/-- C4: contrary to the fatal-short-circuit claim, a task whose transfer
raises a local file I/O error on every attempt with retry_count = 3 is
attempted 4 times with exponential backoff sleeps of 1, 2 and 4 seconds,
because _perform_download swallows the IOError into a False return and the
worker's own IOError handler never runs; the terminal result has
success = false. -/
theorem worker_io_error_retried :
    downloadWorker (fun _ => envIOFail) 3 =
      ⟨false, 0, 0, some exhaustedMsg, 4, 4, [1, 2, 4]⟩ := rfl

/-- Helper: when every attempt's _perform_download fails, the worker loop
runs its full retry budget, ends unsuccessfully with the exhaustion
message, and accumulates one block of c network requests per attempt. -/
theorem downloadWorkerLoop_fail_step (envs : ℕ → PerformEnv) (R n attempt : ℕ)
    (err : Option String) (reqs : ℕ) (waits : List ℕ)
    (hfail : (performDownload (envs attempt)).success = false) :
    downloadWorkerLoop envs R (n + 1) attempt err reqs waits =
      if attempt < R then
        downloadWorkerLoop envs R n (attempt + 1) (some (retryMsg attempt))
          (reqs + (performDownload (envs attempt)).requests) (waits ++ [2 ^ attempt])
      else
        ⟨false, 0, 0, some exhaustedMsg, attempt + 1,
          reqs + (performDownload (envs attempt)).requests, waits⟩ := by
  simp [downloadWorkerLoop, hfail]

theorem downloadWorkerLoop_allFail (envs : ℕ → PerformEnv) (R c : ℕ)
    (hf : ∀ i, (performDownload (envs i)).success = false)
    (hc : ∀ i, (performDownload (envs i)).requests = c) :
    ∀ fuel attempt err reqs waits, fuel + attempt = R + 1 → 0 < fuel →
      (downloadWorkerLoop envs R fuel attempt err reqs waits).success = false ∧
      (downloadWorkerLoop envs R fuel attempt err reqs waits).attempts = R + 1 ∧
      (downloadWorkerLoop envs R fuel attempt err reqs waits).requests = reqs + fuel * c ∧
      (downloadWorkerLoop envs R fuel attempt err reqs waits).error = some exhaustedMsg := by
  intro fuel
  induction fuel with
  | zero => intro attempt err reqs waits hsum hpos; omega
  | succ n ih =>
    intro attempt err reqs waits hsum hpos
    rw [downloadWorkerLoop_fail_step envs R n attempt err reqs waits (hf attempt),
      hc attempt]
    by_cases hlt : attempt < R
    · rw [if_pos hlt]
      have hrec := ih (attempt + 1) (some (retryMsg attempt)) (reqs + c)
        (waits ++ [2 ^ attempt]) (by omega) (by omega)
      refine ⟨hrec.1, hrec.2.1, ?_, hrec.2.2.2⟩
      rw [hrec.2.2.1]
      ring
    · rw [if_neg hlt]
      refine ⟨rfl, ?_, ?_, rfl⟩
      · show attempt + 1 = R + 1
        omega
      · show reqs + c = reqs + (n + 1) * c
        have hn : n = 0 := by omega
        subst hn
        ring

/-- Helper: the same statement for a full _download_worker run. -/
theorem downloadWorker_allFail (envs : ℕ → PerformEnv) (R c : ℕ)
    (hf : ∀ i, (performDownload (envs i)).success = false)
    (hc : ∀ i, (performDownload (envs i)).requests = c) :
    (downloadWorker envs R).success = false ∧
    (downloadWorker envs R).attempts = R + 1 ∧
    (downloadWorker envs R).requests = (R + 1) * c ∧
    (downloadWorker envs R).error = some exhaustedMsg := by
  have h := downloadWorkerLoop_allFail envs R c hf hc (R + 1) 0 none 0 []
    (by omega) (by omega)
  simpa [downloadWorker] using h

/-- C5 counterexample: with retry_count = 2 and a server that always answers
404, the worker makes 3 transfer attempts, not 1 — the 404 is returned to
the worker as a plain False and is retried like any other failure. -/
theorem worker_404_retried :
    (downloadWorker (fun _ => env404) 2).attempts = 3 ∧
    (downloadWorker (fun _ => env404) 2).success = false ∧
    (downloadWorker (fun _ => env404) 2).attempts ≠ 1 := by
  refine ⟨rfl, rfl, by decide⟩

/-- C5 amended: on a 404 the transfer unit fails the attempt immediately —
a single GET, no request-level retry, no exception — and returns
(False, 0, 0); the worker-level retry loop nevertheless re-attempts the
task until the retry budget is exhausted (R+1 transfer attempts in total)
and terminates with success = false. -/
theorem worker_404_fatal_per_attempt (R : ℕ) :
    performDownload env404 = ⟨false, 0, 0, 1⟩ ∧
    (downloadWorker (fun _ => env404) R).attempts = R + 1 ∧
    (downloadWorker (fun _ => env404) R).success = false ∧
    (downloadWorker (fun _ => env404) R).requests = R + 1 := by
  have h := downloadWorker_allFail (fun _ => env404) R 1 (fun _ => rfl) (fun _ => rfl)
  exact ⟨rfl, h.2.1, h.1, by simpa using h.2.2.1⟩

/-- C6 counterexample: with retry_count = 1 and every request timing out,
the task issues 6 network transfer attempts, not R+1 = 2 — each of the two
worker attempts retries the GET 3 times inside _perform_download. -/
theorem worker_timeout_extra_requests :
    (downloadWorker (fun _ => envTimeout) 1).requests = 6 ∧ (6 : ℕ) ≠ 1 + 1 := by
  refine ⟨rfl, by decide⟩

/-- C6 amended: a task with retry count R whose every attempt fails invokes
the transfer unit exactly R+1 times and produces a terminal result with
success = false and a non-empty error message; each transfer-unit
invocation may issue up to 3 network requests (timeouts and connection
errors are retried inside _perform_download), so when each invocation
issues c requests the task issues (R+1)*c network requests in total. -/
theorem worker_retry_exhaustion (R c : ℕ) (envs : ℕ → PerformEnv)
    (hf : ∀ i, (performDownload (envs i)).success = false)
    (hc : ∀ i, (performDownload (envs i)).requests = c) :
    (downloadWorker envs R).attempts = R + 1 ∧
    (downloadWorker envs R).success = false ∧
    (∃ m, (downloadWorker envs R).error = some m ∧ m ≠ "") ∧
    (downloadWorker envs R).requests = (R + 1) * c := by
  have h := downloadWorker_allFail envs R c hf hc
  exact ⟨h.2.1, h.1, ⟨exhaustedMsg, h.2.2.2, by decide⟩, h.2.2.1⟩

/-- C6 witness: all-timeout attempts with retry count 2 give 3 transfer
attempts, failure, a non-empty message, and 9 network requests. -/
theorem worker_retry_exhaustion_witness :
    (downloadWorker (fun _ => envTimeout) 2).attempts = 2 + 1 ∧
    (downloadWorker (fun _ => envTimeout) 2).success = false ∧
    (∃ m, (downloadWorker (fun _ => envTimeout) 2).error = some m ∧ m ≠ "") ∧
    (downloadWorker (fun _ => envTimeout) 2).requests = (2 + 1) * 3 :=
  worker_retry_exhaustion 2 3 (fun _ => envTimeout) (fun _ => rfl) (fun _ => rfl)

/-- Helper: the result-synchronisation loop of get_task_progress is a
global no-op — it iterates over the keys of the results map itself, so its
membership guard is always true and nothing is ever copied from the
scheduler. -/
theorem syncResults_eq (results : List (String × SegResult)) (sched : SchedulerSnapshot) :
    syncResults results sched = results := by
  unfold syncResults
  have key : ∀ l : List String,
      (∀ id ∈ l, ((results.map Prod.fst).contains id) = true) →
      List.foldl
        (fun acc id =>
          if (acc.map Prod.fst).contains id then acc
          else
            match lookupResult sched.completedResults id with
            | some r => acc ++ [(id, r)]
            | none => acc)
        results l = results := by
    intro l
    induction l with
    | nil => intro _; rfl
    | cons a as ih =>
      intro h
      have ha : ((results.map Prod.fst).contains a) = true := h a (by simp)
      simp only [List.foldl_cons, if_pos ha]
      exact ih fun id hid => h id (by simp [hid])
  exact key (results.map Prod.fst) fun id hid => List.elem_eq_true_of_mem hid

/-- C1: for the 4-segment asset whose 4 tasks all reached terminal success
(empty queue, no active download), get_task_progress reports
completed = 0, total = 0 and percentage = 0 instead of the claimed
completed = 4 and percentage = 100 — the batch coordinator's own results
map is still the empty dict it was initialised to (it is never written),
so the fallback path is taken even after completion. -/
theorem taskProgress_results_never_synced :
    getTaskProgress [] schedC1 = ⟨0, 0, 0, 0, 0, 0, 0⟩ ∧
    (getTaskProgress [] schedC1).completedSegments ≠ 4 ∧
    (getTaskProgress [] schedC1).progressPercentage ≠ 100 := by
  refine ⟨rfl, by decide, ?_⟩
  intro h
  rw [show (getTaskProgress [] schedC1).progressPercentage = 0 from rfl] at h
  norm_num at h

/-- Helper: every scheduler step preserves the strengthened concurrency
bound (active plus launched within the limit) and leaves the configured
limit unchanged. -/
theorem schedStep_active_bound {a b : SchedState} (h : SchedStep a b)
    (ha : a.active.length + a.launched.length ≤ a.maxConc) :
    b.active.length + b.launched.length ≤ b.maxConc ∧ b.maxConc = a.maxConc := by
  cases h with
  | addTask t hfresh => exact ⟨ha, rfl⟩
  | dequeue t l₁ l₂ hstop hslot hq hl =>
    refine ⟨?_, rfl⟩
    show a.active.length + [t].length ≤ a.maxConc
    simp only [List.length_singleton]
    omega
  | record t hl =>
    refine ⟨?_, rfl⟩
    show (a.active ++ [t]).length + ([] : List String).length ≤ a.maxConc
    rw [hl] at ha
    simp only [List.length_append, List.length_singleton, List.length_nil] at ha ⊢
    omega
  | workerFinish t hrun hnc => exact ⟨ha, rfl⟩
  | cleanup =>
    refine ⟨?_, rfl⟩
    show (a.active.filter fun t => ¬ a.completed.contains t).length + a.launched.length ≤ a.maxConc
    have hfl := List.length_filter_le (fun t => ¬ a.completed.contains t) a.active
    omega
  | stop => exact ⟨ha, rfl⟩
  | adjustStrategy => exact ⟨ha, rfl⟩

/-- C2: in every reachable state of a scheduler, the number of active
downloads is at most the configured concurrency limit, and the limit itself
is never changed by any step — in particular the bound also holds
immediately after any adjustment step. -/
theorem scheduler_active_le_limit (n : ℕ) (s : SchedState) (h : SchedReachable n s) :
    s.active.length ≤ s.maxConc ∧ s.maxConc = n := by
  have h' : Relation.ReflTransGen SchedStep (SchedState.init n) s := h
  clear h
  have key : s.active.length + s.launched.length ≤ s.maxConc ∧ s.maxConc = n := by
    induction h' with
    | refl => exact ⟨by simp [SchedState.init], rfl⟩
    | tail hab hbc ih =>
      obtain ⟨h1, h2⟩ := ih
      obtain ⟨h3, h4⟩ := schedStep_active_bound hbc h1
      exact ⟨h3, h4.trans h2⟩
  exact ⟨le_trans (Nat.le_add_right _ _) key.1, key.2⟩

/-- Helper: the scheduler can reach the state where t1 has been dequeued
and its thread started but not yet recorded in active_downloads. -/
theorem reach_schedTrace2 : SchedReachable 2 schedTrace2 := by
  have s1 : SchedStep (SchedState.init 2) schedTrace1 :=
    SchedStep.addTask (SchedState.init 2) "t1"
      ⟨by simp [SchedState.init], by simp [SchedState.init],
       by simp [SchedState.init], by simp [SchedState.init]⟩
  have s2 : SchedStep schedTrace1 schedTrace2 :=
    SchedStep.dequeue schedTrace1 "t1" [] [] rfl (by simp [schedTrace1]) rfl rfl
  exact Relation.ReflTransGen.tail (Relation.ReflTransGen.tail .refl s1) s2

/-- Helper: the scheduler can reach the state where t1 is recorded as
active. -/
theorem reach_schedTrace3 : SchedReachable 2 schedTrace3 := by
  have s3 : SchedStep schedTrace2 schedTrace3 :=
    SchedStep.record schedTrace2 "t1" rfl
  exact Relation.ReflTransGen.tail reach_schedTrace2 s3

/-- Helper: the scheduler can reach the state where t1's worker has stored
its result while t1 is still recorded as active. -/
theorem reach_schedTrace4 : SchedReachable 2 schedTrace4 := by
  have s4 : SchedStep schedTrace3 schedTrace4 :=
    SchedStep.workerFinish schedTrace3 "t1" (Or.inr (by simp [schedTrace3]))
      (by simp [schedTrace3])
  exact Relation.ReflTransGen.tail reach_schedTrace3 s4

/-- C2 witness: in the reachable state with t1 active, 1 ≤ 2. -/
theorem scheduler_active_le_limit_witness :
    schedTrace3.active.length ≤ schedTrace3.maxConc ∧ schedTrace3.maxConc = 2 :=
  scheduler_active_le_limit 2 schedTrace3 reach_schedTrace3

/-- C3 counterexample: the exactly-one invariant fails in two reachable
states — after dequeue but before admission recording, t1 is in none of
pending, active and completed although submitted and not terminal; and
after the worker stores its result but before cleanup, t1 is in both
active and completed. -/
theorem task_state_exactly_one_fails :
    (SchedReachable 2 schedTrace2 ∧ "t1" ∉ schedTrace2.queue ∧
      "t1" ∉ schedTrace2.active ∧ "t1" ∉ schedTrace2.completed) ∧
    (SchedReachable 2 schedTrace4 ∧ "t1" ∈ schedTrace4.active ∧
      "t1" ∈ schedTrace4.completed) :=
  ⟨⟨reach_schedTrace2, by simp [schedTrace2], by simp [schedTrace2], by simp [schedTrace2]⟩,
   ⟨reach_schedTrace4, by simp [schedTrace4], by simp [schedTrace4]⟩⟩

/-- Helper: every scheduler step preserves the pending-disjointness
invariant. -/
theorem schedStep_pending_disjoint {a b : SchedState} (h : SchedStep a b)
    (ha : PendingDisjoint a) : PendingDisjoint b := by
  obtain ⟨hnd, hdisj⟩ := ha
  cases h with
  | addTask t hfresh =>
    obtain ⟨hq, hl, hac, hc⟩ := hfresh
    refine ⟨?_, ?_⟩
    · show (a.queue ++ [t]).Nodup
      simp [List.nodup_append, hnd, hq]
    · intro u hu
      rcases List.mem_append.mp hu with hu | hu
      · exact hdisj u hu
      · rw [List.mem_singleton] at hu
        subst hu
        exact ⟨hl, hac, hc⟩
  | dequeue t l₁ l₂ hstop hslot hq hl =>
    rw [hq] at hnd hdisj
    obtain ⟨hnotmem, hnd'⟩ := List.nodup_cons.mp (List.nodup_middle.mp hnd)
    refine ⟨hnd', ?_⟩
    intro u hu
    have huq : u ∈ l₁ ++ t :: l₂ := by
      rcases List.mem_append.mp hu with h1 | h2
      · exact List.mem_append.mpr (Or.inl h1)
      · exact List.mem_append.mpr (Or.inr (List.mem_cons_of_mem t h2))
    obtain ⟨_, hac, hc⟩ := hdisj u huq
    refine ⟨?_, hac, hc⟩
    show u ∉ [t]
    rw [List.mem_singleton]
    intro hut
    subst hut
    exact hnotmem hu
  | record t hl =>
    refine ⟨hnd, ?_⟩
    intro u hu
    obtain ⟨hul, hac, hc⟩ := hdisj u hu
    rw [hl, List.mem_singleton] at hul
    refine ⟨by simp, ?_, hc⟩
    show u ∉ a.active ++ [t]
    rw [List.mem_append, List.mem_singleton]
    rintro (h | h)
    · exact hac h
    · exact hul h
  | workerFinish t hrun hnc =>
    refine ⟨hnd, ?_⟩
    intro u hu
    obtain ⟨hul, hac, hc⟩ := hdisj u hu
    refine ⟨hul, hac, ?_⟩
    show u ∉ a.completed ++ [t]
    rw [List.mem_append, List.mem_singleton]
    rintro (h | h)
    · exact hc h
    · subst h
      rcases hrun with h | h
      · exact hul h
      · exact hac h
  | cleanup =>
    refine ⟨hnd, ?_⟩
    intro u hu
    obtain ⟨hul, hac, hc⟩ := hdisj u hu
    exact ⟨hul, fun hmem => hac (List.mem_of_mem_filter hmem), hc⟩
  | stop => exact ⟨hnd, hdisj⟩
  | adjustStrategy => exact ⟨hnd, hdisj⟩

/-- C3 amended: in every reachable scheduler state, a task id waiting in
the pending queue is in none of the other containers (launched, active,
completed), and the pending queue holds no duplicates; the exactly-one
property of the original claim fails only in the two windows exhibited by
the counterexample — between dequeue and admission recording a task is in
none of the three containers, and between result recording and cleanup it
is in both active and completed. -/
theorem scheduler_pending_disjoint (n : ℕ) (s : SchedState) (h : SchedReachable n s) :
    PendingDisjoint s := by
  have h' : Relation.ReflTransGen SchedStep (SchedState.init n) s := h
  clear h
  induction h' with
  | refl => exact ⟨by simp [SchedState.init], by simp [SchedState.init]⟩
  | tail hab hbc ih => exact schedStep_pending_disjoint hbc ih

/-- C3 amended witness: the invariant holds in the reachable state with t1
active. -/
theorem scheduler_pending_disjoint_witness : PendingDisjoint schedTrace3 :=
  scheduler_pending_disjoint 2 schedTrace3 reach_schedTrace3

/-- C10 counterexample: re-adding the already-queued task t is not a no-op —
add_to_queue unconditionally calls _try_start_next_task, which moves t from
pending into running (with a free slot and an installed callback). -/
theorem addToQueue_readd_not_noop :
    addToQueue "t" qsReAdd = some qsReAddNext ∧ qsReAddNext ≠ qsReAdd := by
  refine ⟨by decide, by decide⟩

/-- Helper: the admission loop only pops from pending, so it maps a
duplicate-free pending list to a duplicate-free pending list. -/
theorem tryStartLoop_pending_nodup (maxC : ℕ) (hasCb : Bool) :
    ∀ (pending running : List String) (tasks : List (String × TaskStatus))
      (p r : List String) (ts : List (String × TaskStatus)),
      pending.Nodup →
      tryStartLoop maxC hasCb pending running tasks = some (p, r, ts) →
      p.Nodup := by
  intro pending
  induction pending with
  | nil =>
    intro running tasks p r ts hnd h
    unfold tryStartLoop at h
    simp only [Option.some_inj, Prod.mk.injEq] at h
    obtain ⟨h1, h2, h3⟩ := h
    subst h1
    exact List.nodup_nil
  | cons t rest ih =>
    intro running tasks p r ts hnd h
    unfold tryStartLoop at h
    split at h
    · simp only [Option.some_inj, Prod.mk.injEq] at h
      obtain ⟨h1, h2, h3⟩ := h
      subst h1
      exact hnd
    · split at h
      · exact absurd h (by simp)
      · split at h
        · exact absurd h (by simp)
        · split at h
          · exact ih (running ++ [t]) (setStatus tasks t TaskStatus.downloading)
              p r ts (List.Nodup.of_cons hnd) h
          · exact ih running tasks p r ts (List.Nodup.of_cons hnd) h

/-- Helper: the admission attempt preserves duplicate-freedom of pending. -/
theorem tryStartNextTask_pending_nodup (s s' : QueueState)
    (hnd : s.pending.Nodup) (h : tryStartNextTask s = some s') :
    s'.pending.Nodup := by
  unfold tryStartNextTask at h
  split at h
  · exact absurd h (by simp)
  · next p r ts heq =>
    simp only [Option.some_inj] at h
    subst h
    exact tryStartLoop_pending_nodup s.maxConcurrent s.hasCallback
      s.pending s.running s.tasks p r ts hnd heq

/-- C10 amended: add_to_queue inserts a task id only when it is in neither
the pending list nor the running map, so the pending list never gains a
duplicate; re-adding an already queued or already running task performs no
insertion — the call is then exactly the admission attempt alone, which may
still move queued tasks into running. -/
theorem addToQueue_guard (t : String) (s s' : QueueState)
    (hnd : s.pending.Nodup) (h : addToQueue t s = some s') :
    s'.pending.Nodup ∧
    ((t ∈ s.pending ∨ t ∈ s.running) → addToQueue t s = tryStartNextTask s) := by
  constructor
  · unfold addToQueue at h
    refine tryStartNextTask_pending_nodup (addToQueueInsert t s) s' ?_ h
    unfold addToQueueInsert
    by_cases hc : t ∉ s.pending ∧ t ∉ s.running
    · rw [if_pos hc]
      show (s.pending ++ [t]).Nodup
      simp [List.nodup_append, hnd, hc.1]
    · rw [if_neg hc]
      exact hnd
  · intro hmem
    unfold addToQueue addToQueueInsert
    rw [if_neg (by tauto)]

/-- C10 witness: with no free slot the admission attempt is the identity,
so re-adding the already-pending task a leaves the state unchanged. -/
theorem addToQueue_guard_witness :
    qsGuardW.pending.Nodup ∧
    (("a" ∈ qsGuardW.pending ∨ "a" ∈ qsGuardW.running) →
      addToQueue "a" qsGuardW = tryStartNextTask qsGuardW) :=
  addToQueue_guard "a" qsGuardW qsGuardW (by decide) (by decide)

end M3u8
